import Mathlib

/-!
Verification development for `hls4ml/backends/fpga/fpga_types.py`.

The file shallowly embeds the precision hierarchy, the dialect precision
converters (`APTypeConverter`, `ACTypeConverter`), the composite type
wrappers (`HLSType`, `HLSCompressedType`, `HLSExponentType`,
`HLSPackedType`) with their `from_type` constructors and `definition_cpp`
renderers, the `HLSTypeConverter` dispatcher, and the variable
representations (`ArrayVariable`, `StructMemberVariable`, `StreamVariable`,
`StaticWeightVariable`, `BramWeightVariable`) with their `from_variable`
constructors and renderers.

Python's exact-class world is modelled by one inductive type per layer whose
constructors mirror the classes; fallible paths (`raise`, `assert`,
`IndexError`) are modelled with `Except String`.  The upstream module
`hls4ml.model.hls_types` is not part of the sources; the few pieces of it
that the embedded code touches (constructors and textual forms of the
upstream descriptors) are modelled from the specification and are marked
`Modelled from the spec:` in their doc comments.
-/

deriving instance DecidableEq for Except

/-- Precision classes of the source, one constructor per Python class: the
four abstract upstream kinds and the eight dialect-specialized leaf classes
(`AP*` for the bounded-width dialect, `AC*` for the algorithmic dialect).
`XnorPrecisionType` carries no fields: it is a single unsigned bit
(width 1, unsigned), as are its dialect variants. -/
inductive PrecisionType where
  | IntegerPrecisionType (width : Nat) (signed : Bool)
  | FixedPrecisionType (width integer : Nat) (signed : Bool)
      (rounding_mode saturation_mode : Option String) (saturation_bits : Option Nat)
  | XnorPrecisionType
  | ExponentPrecisionType (width : Nat) (signed : Bool)
  | APIntegerPrecisionType (width : Nat) (signed : Bool)
  | APFixedPrecisionType (width integer : Nat) (signed : Bool)
      (rounding_mode saturation_mode : Option String) (saturation_bits : Option Nat)
  | APXnorPrecisionType
  | APExponentPrecisionType (width : Nat) (signed : Bool)
  | ACIntegerPrecisionType (width : Nat) (signed : Bool)
  | ACFixedPrecisionType (width integer : Nat) (signed : Bool)
      (rounding_mode saturation_mode : Option String) (saturation_bits : Option Nat)
  | ACXnorPrecisionType
  | ACExponentPrecisionType (width : Nat) (signed : Bool)
deriving DecidableEq, Repr

/-- The Python class name (`type(p).__name__`) of a precision value. -/
def className : PrecisionType → String
  | .IntegerPrecisionType _ _ => "IntegerPrecisionType"
  | .FixedPrecisionType _ _ _ _ _ _ => "FixedPrecisionType"
  | .XnorPrecisionType => "XnorPrecisionType"
  | .ExponentPrecisionType _ _ => "ExponentPrecisionType"
  | .APIntegerPrecisionType _ _ => "APIntegerPrecisionType"
  | .APFixedPrecisionType _ _ _ _ _ _ => "APFixedPrecisionType"
  | .APXnorPrecisionType => "APXnorPrecisionType"
  | .APExponentPrecisionType _ _ => "APExponentPrecisionType"
  | .ACIntegerPrecisionType _ _ => "ACIntegerPrecisionType"
  | .ACFixedPrecisionType _ _ _ _ _ _ => "ACFixedPrecisionType"
  | .ACXnorPrecisionType => "ACXnorPrecisionType"
  | .ACExponentPrecisionType _ _ => "ACExponentPrecisionType"

/-- The source's guard `type(p).__name__.startswith('AP')`: true exactly on
the four `AP*` leaf classes. -/
def isAPTagged : PrecisionType → Bool
  | .APIntegerPrecisionType _ _ => true
  | .APFixedPrecisionType _ _ _ _ _ _ => true
  | .APXnorPrecisionType => true
  | .APExponentPrecisionType _ _ => true
  | _ => false

/-- The source's guard `type(p).__name__.startswith('AC')`: true exactly on
the four `AC*` leaf classes. -/
def isACTagged : PrecisionType → Bool
  | .ACIntegerPrecisionType _ _ => true
  | .ACFixedPrecisionType _ _ _ _ _ _ => true
  | .ACXnorPrecisionType => true
  | .ACExponentPrecisionType _ _ => true
  | _ => false

/-- True on the four abstract upstream precision kinds. -/
def isAbstractKind : PrecisionType → Bool
  | .IntegerPrecisionType _ _ => true
  | .FixedPrecisionType _ _ _ _ _ _ => true
  | .XnorPrecisionType => true
  | .ExponentPrecisionType _ _ => true
  | _ => false

/-- `','.join(str(a) for a in args if a is not None)` over an argument list
with optional entries, as in the fixed-point renderers. -/
def joinArgs (args : List (Option String)) : String :=
  String.intercalate "," (args.filterMap id)

/-- `'ap_{signed}int<{width}>'` with `signed = 'u' if not signed else ''`. -/
def apIntString (width : Nat) (signed : Bool) : String :=
  "ap_" ++ (if signed then "" else "u") ++ "int<" ++ toString width ++ ">"

/-- `'ac_int<{width}, {signed}>'` with `str(signed).lower()`. -/
def acIntString (width : Nat) (signed : Bool) : String :=
  "ac_int<" ++ toString width ++ ", " ++ (if signed then "true" else "false") ++ ">"

/-- `APFixedPrecisionType.definition_cpp`: argument list
`[width, integer, rounding, saturation, saturation_bits]` with `None`
entries dropped, rounding/saturation tokens prefixed `AP_`. -/
def apFixedString (width integer : Nat) (signed : Bool)
    (rm sm : Option String) (sb : Option Nat) : String :=
  "ap_" ++ (if signed then "" else "u") ++ "fixed<" ++
    joinArgs [some (toString width), some (toString integer),
      rm.map (fun m => "AP_" ++ m), sm.map (fun m => "AP_" ++ m),
      sb.map toString] ++ ">"

/-- `ACFixedPrecisionType.definition_cpp`: argument list
`[width, integer, str(signed).lower(), rounding, saturation,
saturation_bits]` with `None` entries dropped, tokens prefixed `AC_`. -/
def acFixedString (width integer : Nat) (signed : Bool)
    (rm sm : Option String) (sb : Option Nat) : String :=
  "ac_fixed<" ++
    joinArgs [some (toString width), some (toString integer),
      some (if signed then "true" else "false"),
      rm.map (fun m => "AC_" ++ m), sm.map (fun m => "AC_" ++ m),
      sb.map toString] ++ ">"

/-- `definition_cpp` of the dialect leaf classes.  The four abstract
upstream kinds do not define `definition_cpp`, hence `none`.  The Xnor and
Exponent leaves reuse the Integer leaf's renderer (an Xnor value is a single
unsigned bit). -/
def definition_cpp : PrecisionType → Option String
  | .APIntegerPrecisionType w s => some (apIntString w s)
  | .APFixedPrecisionType w i s rm sm sb => some (apFixedString w i s rm sm sb)
  | .APXnorPrecisionType => some (apIntString 1 false)
  | .APExponentPrecisionType w s => some (apIntString w s)
  | .ACIntegerPrecisionType w s => some (acIntString w s)
  | .ACFixedPrecisionType w i s rm sm sb => some (acFixedString w i s rm sm sb)
  | .ACXnorPrecisionType => some (acIntString 1 false)
  | .ACExponentPrecisionType w s => some (acIntString w s)
  | _ => none

/-- Modelled from the spec: the textual form (`__str__`) of the upstream
precision descriptors lives in `hls4ml.model.hls_types`, which is not part
of the sources.  The embedded code interpolates these descriptors directly
into format strings (`HLSCompressedType.definition_cpp` formats
`self.index_precision`, `HLSExponentType.definition_cpp` formats
`str(XnorPrecisionType())`).  The spec presents the bounded-width dialect as
the `ap_`-prefixed rendering of each kind and gives the upstream descriptors
no dialect-dependent textual form, so the upstream `__str__` is modelled as
the bounded-width rendering of the descriptor's own fields, inherited
unchanged by the dialect leaf classes.  Note that whatever fixed form were
chosen here, it could not agree with both dialects' `definition_cpp`
renderers at once, since it does not depend on the dialect. -/
def precisionStr : PrecisionType → String
  | .IntegerPrecisionType w s => apIntString w s
  | .FixedPrecisionType w i s rm sm sb => apFixedString w i s rm sm sb
  | .XnorPrecisionType => apIntString 1 false
  | .ExponentPrecisionType w s => apIntString w s
  | .APIntegerPrecisionType w s => apIntString w s
  | .APFixedPrecisionType w i s rm sm sb => apFixedString w i s rm sm sb
  | .APXnorPrecisionType => apIntString 1 false
  | .APExponentPrecisionType w s => apIntString w s
  | .ACIntegerPrecisionType w s => apIntString w s
  | .ACFixedPrecisionType w i s rm sm sb => apFixedString w i s rm sm sb
  | .ACXnorPrecisionType => apIntString 1 false
  | .ACExponentPrecisionType w s => apIntString w s

/-- `APTypeConverter.convert`: pass through values whose class name starts
with `AP`, dispatch the four abstract kinds by exact class comparison to the
`AP*` leaves (copying only the fields each kind defines), and raise on
anything else. -/
def APTypeConverter.convert (p : PrecisionType) : Except String PrecisionType :=
  if isAPTagged p then .ok p
  else match p with
    | .XnorPrecisionType => .ok .APXnorPrecisionType
    | .IntegerPrecisionType w s => .ok (.APIntegerPrecisionType w s)
    | .ExponentPrecisionType w s => .ok (.APExponentPrecisionType w s)
    | .FixedPrecisionType w i s rm sm sb => .ok (.APFixedPrecisionType w i s rm sm sb)
    | q => .error ("Cannot convert precision type to AP: " ++ className q)

/-- `ACTypeConverter.convert`: pass through values whose class name starts
with `AC`, dispatch the four abstract kinds by exact class comparison to the
`AC*` leaves, and raise on anything else. -/
def ACTypeConverter.convert (p : PrecisionType) : Except String PrecisionType :=
  if isACTagged p then .ok p
  else match p with
    | .XnorPrecisionType => .ok .ACXnorPrecisionType
    | .IntegerPrecisionType w s => .ok (.ACIntegerPrecisionType w s)
    | .ExponentPrecisionType w s => .ok (.ACExponentPrecisionType w s)
    | .FixedPrecisionType w i s rm sm sb => .ok (.ACFixedPrecisionType w i s rm sm sb)
    | q => .error ("Cannot convert precision type to AC: " ++ className q)

/-- Composite type shapes of the data model, one constructor per upstream
shape (`NamedType` and its three subclasses).  The `HLS*` wrapper classes of
the source carry exactly the same fields as their upstream bases and differ
only in providing `definition_cpp`, so one inductive serves for both; a
converted value is one whose `precision` is dialect-tagged. -/
inductive TypeV where
  | NamedType (name : String) (precision : PrecisionType)
  | CompressedType (name : String) (precision : PrecisionType)
      (index_precision : PrecisionType)
  | ExponentType (name : String) (precision : PrecisionType)
  | PackedType (name : String) (precision : PrecisionType)
      (n_elem n_pack : Nat) ( unpack : Bool)
deriving DecidableEq, Repr

/-- The `name` attribute shared by all composite type shapes. -/
def TypeV.name : TypeV → String
  | .NamedType nm _ => nm
  | .CompressedType nm _ _ => nm
  | .ExponentType nm _ => nm
  | .PackedType nm _ _ _ _ => nm

/-- The `precision` attribute shared by all composite type shapes. -/
def TypeV.precision : TypeV → PrecisionType
  | .NamedType _ p => p
  | .CompressedType _ p _ => p
  | .ExponentType _ p => p
  | .PackedType _ p _ _ _ => p

/-- Modelled from the spec: the `PackedType` constructor lives in
`hls4ml.model.hls_types`, which is not part of the sources.  Per the spec a
`PackedType` carries `n_elem`, `n_pack` and an `unpack` flag; calls that do
not supply `unpack` (as in `HLSPackedType.from_type` and
`StreamVariable.__init__`) receive the constructor's default value, which is
modelled here. -/
def packedUnpackDefault : Bool := false

/-- The type converter object, holding the dialect precision converter it
threads into the wrapper constructors. -/
structure HLSTypeConverter where
  precision_converter : PrecisionType → Except String PrecisionType

/-- `HLSType.from_type`: copy the name and convert the precision. -/
def HLSType.from_type (nm : String) (p : PrecisionType)
    (tc : HLSTypeConverter) : Except String TypeV :=
  match tc.precision_converter p with
  | .error e => .error e
  | .ok q => .ok (TypeV.NamedType nm q)

/-- `HLSCompressedType.from_type`: copy the name, convert the precision, and
pass `index_precision` through unconverted. -/
def HLSCompressedType.from_type (nm : String) (p ip : PrecisionType)
    (tc : HLSTypeConverter) : Except String TypeV :=
  match tc.precision_converter p with
  | .error e => .error e
  | .ok q => .ok (TypeV.CompressedType nm q ip)

/-- `HLSExponentType.from_type`: copy the name and convert the precision. -/
def HLSExponentType.from_type (nm : String) (p : PrecisionType)
    (tc : HLSTypeConverter) : Except String TypeV :=
  match tc.precision_converter p with
  | .error e => .error e
  | .ok q => .ok (TypeV.ExponentType nm q)

/-- `HLSPackedType.from_type`: copy name, `n_elem` and `n_pack`, convert the
precision; the source's `unpack` flag is not passed, so the constructed
value receives the constructor's default. -/
def HLSPackedType.from_type (nm : String) (p : PrecisionType)
    (ne np : Nat) (tc : HLSTypeConverter) : Except String TypeV :=
  match tc.precision_converter p with
  | .error e => .error e
  | .ok q => .ok (TypeV.PackedType nm q ne np packedUnpackDefault)

/-- `HLSTypeConverter.convert`: `isinstance` dispatch in source order
(Packed, then Compressed, then Exponent, then plain `NamedType`), each arm
destructuring the fields its `from_type` reads. -/
def HLSTypeConverter.convert (tc : HLSTypeConverter) (t : TypeV) :
    Except String TypeV :=
  match t with
  | .PackedType nm p ne np _u => HLSPackedType.from_type nm p ne np tc
  | .CompressedType nm p ip => HLSCompressedType.from_type nm p ip tc
  | .ExponentType nm p => HLSExponentType.from_type nm p tc
  | .NamedType nm p => HLSType.from_type nm p tc

/-- The `APTypeConverter` instance used as `precision_converter`. -/
def apTypeConverter : HLSTypeConverter := ⟨APTypeConverter.convert⟩

/-- The `ACTypeConverter` instance used as `precision_converter`. -/
def acTypeConverter : HLSTypeConverter := ⟨ACTypeConverter.convert⟩

/-- `definition_cpp` of the four `HLS*` wrapper classes, one match arm per
class.  Rendering reads the dialect leaf's `definition_cpp` of the stored
precision (hence `Option`: the abstract kinds have none); `index_precision`
and the exponent sign are interpolated through the upstream textual form
(`'{index}'.format(...)` and `str(XnorPrecisionType())` in the source), not
through a dialect renderer.  Literal braces of the C struct syntax are
written as escapes. -/
def hlsDefinitionCpp : TypeV → Option String
  | .NamedType nm p =>
    (definition_cpp p).map (fun ps => "typedef " ++ ps ++ " " ++ nm ++ ";\n")
  | .CompressedType nm p ip =>
    (definition_cpp p).map (fun ps =>
      "typedef struct " ++ nm ++ " \x7b" ++
        precisionStr ip ++ " row_index;" ++
        precisionStr ip ++ " col_index;" ++
        ps ++ " weight; \x7d " ++ nm ++ ";\n")
  | .ExponentType nm p =>
    (definition_cpp p).map (fun ps =>
      "typedef struct " ++ nm ++ " \x7b" ++
        precisionStr PrecisionType.XnorPrecisionType ++ " sign;" ++
        ps ++ " weight; \x7d " ++ nm ++ ";\n")
  | .PackedType nm p ne np u =>
    (definition_cpp p).map (fun ps =>
      "typedef nnet::array<" ++ ps ++ ", " ++
        toString ne ++ (if u then "/" else "*") ++ toString np ++ "> " ++
        nm ++ ";\n")

/-- Modelled from the spec: the upstream `TensorVariable` (from
`hls4ml.model.hls_types`, not part of the sources) carries an ordered shape,
dimension names of the same length, a name, and an owned `NamedType`-shaped
`type`.  Its constructor takes a type name and a precision and owns a plain
`NamedType` built from them, which is how the variable constructors of the
source rebuild `self.type` before converting it.  The spec's render
contracts use the variable's name directly, so `cppname` is modelled as the
name itself. -/
structure TensorVar where
  shape : List Nat
  dim_names : List String
  name : String
  type : TypeV
deriving DecidableEq, Repr

/-- Modelled from the spec: the upstream `WeightVariable` (not part of the
sources) carries a name, an owned type, an opaque numeric payload `data`
whose flattened element count is `data_length`, and optional quantizer
metadata. -/
structure WeightVar where
  name : String
  type : TypeV
  data : List Int
  quantizer : Option String
deriving DecidableEq, Repr

/-- State of an `ArrayVariable` (also of its `VivadoArrayVariable` and
`QuartusArrayVariable` subclasses, which add no fields). -/
structure ArrayVariableS where
  shape : List Nat
  dim_names : List String
  name : String
  type : TypeV
  pragma : String
deriving DecidableEq, Repr

/-- `ArrayVariable.__init__`: rebuild a plain `NamedType` from the tensor
variable's type name and precision (the upstream base constructor), then
convert it once with the given type converter. -/
def ArrayVariable.init (tv : TensorVar) (tc : HLSTypeConverter)
    (pragma : String) : Except String ArrayVariableS :=
  match HLSTypeConverter.convert tc (TypeV.NamedType tv.type.name tv.type.precision) with
  | .error e => .error e
  | .ok t => .ok ⟨tv.shape, tv.dim_names, tv.name, t, pragma⟩

/-- `ArrayVariable.size_cpp`: `'*'.join(str(k) for k in self.dim_names)`. -/
def ArrayVariable.size_cpp (a : ArrayVariableS) : String :=
  String.intercalate "*" a.dim_names

/-- `VivadoArrayVariable.definition_cpp`. -/
def VivadoArrayVariable.definition_cpp (a : ArrayVariableS)
    (name_suffix : String) : String :=
  a.type.name ++ " " ++ a.name ++ name_suffix ++ "[" ++ ArrayVariable.size_cpp a ++ "]"

/-- `QuartusArrayVariable.definition_cpp`: the dense form followed by the
placement pragma. -/
def QuartusArrayVariable.definition_cpp (a : ArrayVariableS)
    (name_suffix : String) : String :=
  a.type.name ++ " " ++ a.name ++ name_suffix ++ "[" ++ ArrayVariable.size_cpp a ++ "] " ++ a.pragma

/-- State of a `StructMemberVariable`: the array state plus the containing
struct's name and the bare member name; `name` is the dotted external
name. -/
structure StructMemberS where
  shape : List Nat
  dim_names : List String
  name : String
  type : TypeV
  pragma : String
  struct_name : String
  member_name : String
deriving DecidableEq, Repr

/-- `StructMemberVariable.__init__`: run the array constructor (conversion
included), then assert that `struct_name` was provided (`None` fails with
the assertion message; any provided string, the empty one included, is
accepted), record the bare member name, and set the external name to
`struct_name + '.' + member_name`. -/
def StructMemberVariable.init (tv : TensorVar) (tc : HLSTypeConverter)
    (pragma : String) (struct_name : Option String) :
    Except String StructMemberS :=
  match ArrayVariable.init tv tc pragma with
  | .error e => .error e
  | .ok a =>
    match struct_name with
    | none => .error "struct_name must be provided when creating StructMemberVariable"
    | some sn =>
      .ok ⟨a.shape, a.dim_names, sn ++ "." ++ a.name, a.type, a.pragma, sn, a.name⟩

/-- `StructMemberVariable.definition_cpp`: the bracketed declaration uses
the bare member name. -/
def StructMemberVariable.definition_cpp (s : StructMemberS)
    (name_suffix : String) : String :=
  s.type.name ++ " " ++ s.member_name ++ name_suffix ++ "[" ++
    String.intercalate "*" s.dim_names ++ "]"

/-- State of a `StreamVariable`: the tensor fields, the converted packed
type, and the `('stream', depth)` pragma. -/
structure StreamVariableS where
  shape : List Nat
  dim_names : List String
  name : String
  type : TypeV
  pragma : String × Nat
deriving DecidableEq, Repr

/-- `prod(shape)` as computed by `np.prod` on a non-empty shape. -/
def listProd (l : List Nat) : Nat := l.foldl (· * ·) 1

/-- `StreamVariable.__init__`: read the last shape dimension (`shape[-1]`
raises `IndexError` on an empty shape), wrap the precision in a fresh
`PackedType` over that dimension and the given `n_pack` (the constructor's
`unpack` default applies) and convert it; when no positive depth is given,
default it to `np.prod(shape) // shape[-1]`.  NumPy integer floor-division
by zero does not raise: it yields `0` with a runtime warning, which `Nat`
division models exactly. -/
def StreamVariable.init (tv : TensorVar) (tc : HLSTypeConverter)
    (n_pack depth : Nat) : Except String StreamVariableS :=
  match tv.shape.getLast? with
  | none => .error "IndexError: list index out of range"
  | some lastDim =>
    match HLSTypeConverter.convert tc
        (TypeV.PackedType tv.type.name tv.type.precision lastDim n_pack
          packedUnpackDefault) with
    | .error e => .error e
    | .ok t =>
      let d := if depth = 0 then listProd tv.shape / lastDim else depth
      .ok ⟨tv.shape, tv.dim_names, tv.name, t, ("stream", d)⟩

/-- `StreamVariable.definition_cpp`: reference/parameter form when
`as_reference`, declaration form otherwise. -/
def StreamVariable.definition_cpp (s : StreamVariableS)
    (name_suffix : String) (as_reference : Bool) : String :=
  if as_reference then
    "hls::stream<" ++ s.type.name ++ "> &" ++ s.name ++ name_suffix
  else
    "hls::stream<" ++ s.type.name ++ "> " ++ s.name ++ name_suffix ++
      "(\"" ++ s.name ++ "\")"

/-- State of a `StaticWeightVariable`: weight fields, the converted type,
and the source value's class name. -/
structure StaticWeightS where
  name : String
  type : TypeV
  data : List Int
  weight_class : String
deriving DecidableEq, Repr

/-- `StaticWeightVariable.__init__`: rebuild the plain `NamedType` (the
upstream base constructor), record the source's class name, and convert the
type once. -/
def StaticWeightVariable.init (w : WeightVar) (cls : String)
    (tc : HLSTypeConverter) : Except String StaticWeightS :=
  match HLSTypeConverter.convert tc (TypeV.NamedType w.type.name w.type.precision) with
  | .error e => .error e
  | .ok t => .ok ⟨w.name, t, w.data, cls⟩

/-- `StaticWeightVariable.definition_cpp`: `'{type} {name}[{size}]'` with
`size = self.data_length`, the flattened element count of `data`. -/
def StaticWeightVariable.definition_cpp (s : StaticWeightS)
    (name_suffix : String) : String :=
  s.type.name ++ " " ++ s.name ++ name_suffix ++ "[" ++ toString s.data.length ++ "]"

/-- State of a `BramWeightVariable`: the upstream weight fields with the
type rebuilt as a plain `NamedType`; no conversion and no renderer of its
own. -/
structure BramWeightS where
  name : String
  type : TypeV
  data : List Int
  quantizer : Option String
deriving DecidableEq, Repr

/-- Possible arguments of the tensor-side `from_variable` constructors: a
plain upstream tensor variable or an existing instance of one of the
representation classes.  The constructor of the argument models its exact
Python class, which `type(tensor_var) == cls` compares. -/
inductive TVInput where
  | plain (tv : TensorVar)
  | array (a : ArrayVariableS)
  | structMember (s : StructMemberS)
  | stream (s : StreamVariableS)
deriving DecidableEq, Repr

/-- View any argument as the tensor-variable interface its fields provide
(shape, dimension names, name, owned type), which the constructors read. -/
def TVInput.toTensorVar : TVInput → TensorVar
  | .plain tv => tv
  | .array a => ⟨a.shape, a.dim_names, a.name, a.type⟩
  | .structMember s => ⟨s.shape, s.dim_names, s.name, s.type⟩
  | .stream s => ⟨s.shape, s.dim_names, s.name, s.type⟩

/-- Possible arguments of the weight-side `from_variable` constructors. -/
inductive WVInput where
  | plain (w : WeightVar)
  | staticW (s : StaticWeightS)
  | bram (b : BramWeightS)
deriving DecidableEq, Repr

/-- The Python class name of a weight-side argument, recorded by
`StaticWeightVariable.__init__` as `weight_class`. -/
def WVInput.className : WVInput → String
  | .plain _ => "WeightVariable"
  | .staticW _ => "StaticWeightVariable"
  | .bram _ => "BramWeightVariable"

/-- View any weight-side argument as the weight-variable interface. -/
def WVInput.toWeightVar : WVInput → WeightVar
  | .plain w => w
  | .staticW s => ⟨s.name, s.type, s.data, none⟩
  | .bram b => ⟨b.name, b.type, b.data, b.quantizer⟩

/-- Outcome of a `from_variable` call, keeping Python object identity
observable: either the very input object was returned, or a new instance
was constructed (possibly raising). -/
inductive FromVarOutcome (σ : Type) where
  | returnedInput : FromVarOutcome σ
  | constructed : Except String σ → FromVarOutcome σ
deriving DecidableEq, Repr

/-- `ArrayVariable.from_variable`: no exact-class pass-through check; every
call constructs a new instance. -/
def ArrayVariable.from_variable (inp : TVInput) (tc : HLSTypeConverter)
    (pragma : String) : FromVarOutcome ArrayVariableS :=
  .constructed (ArrayVariable.init inp.toTensorVar tc pragma)

/-- `StructMemberVariable.from_variable`: return the input unchanged when it
is exactly a `StructMemberVariable`, otherwise construct. -/
def StructMemberVariable.from_variable (inp : TVInput) (tc : HLSTypeConverter)
    (pragma : String) (struct_name : Option String) :
    FromVarOutcome StructMemberS :=
  match inp with
  | .structMember _ => .returnedInput
  | i => .constructed (StructMemberVariable.init i.toTensorVar tc pragma struct_name)

/-- `StreamVariable.from_variable`: return the input unchanged when it is
exactly a `StreamVariable`, otherwise construct. -/
def StreamVariable.from_variable (inp : TVInput) (tc : HLSTypeConverter)
    (n_pack depth : Nat) : FromVarOutcome StreamVariableS :=
  match inp with
  | .stream _ => .returnedInput
  | i => .constructed (StreamVariable.init i.toTensorVar tc n_pack depth)

/-- `StaticWeightVariable.from_variable`: return the input unchanged when it
is exactly a `StaticWeightVariable`, otherwise construct. -/
def StaticWeightVariable.from_variable (inp : WVInput) (tc : HLSTypeConverter) :
    FromVarOutcome StaticWeightS :=
  match inp with
  | .staticW _ => .returnedInput
  | i => .constructed (StaticWeightVariable.init i.toWeightVar i.className tc)

/-- `BramWeightVariable.from_variable`: return the input unchanged when it
is exactly a `BramWeightVariable`, otherwise construct an upstream-shaped
weight variable from the input's fields (no type conversion). -/
def BramWeightVariable.from_variable (inp : WVInput) : FromVarOutcome BramWeightS :=
  match inp with
  | .bram _ => .returnedInput
  | i =>
    .constructed (.ok ⟨i.toWeightVar.name,
      TypeV.NamedType i.toWeightVar.type.name i.toWeightVar.type.precision,
      i.toWeightVar.data, i.toWeightVar.quantizer⟩)

example : StreamVariable.init
    ⟨[10, 8], ["N", "M"], "myvar", .NamedType "mytype_t" (.FixedPrecisionType 16 6 true none none none)⟩
    apTypeConverter 1 0 =
    .ok ⟨[10, 8], ["N", "M"], "myvar",
      .PackedType "mytype_t" (.APFixedPrecisionType 16 6 true none none none) 8 1 false,
      ("stream", 10)⟩ := by decide

example : StreamVariable.init
    ⟨[10, 0], ["N", "M"], "v", .NamedType "v_t" (.FixedPrecisionType 16 6 true none none none)⟩
    apTypeConverter 1 0 =
    .ok ⟨[10, 0], ["N", "M"], "v",
      .PackedType "v_t" (.APFixedPrecisionType 16 6 true none none none) 0 1 false,
      ("stream", 0)⟩ := by decide

example : StructMemberVariable.init
    ⟨[10, 8], ["N", "M"], "out", .NamedType "out_t" (.FixedPrecisionType 16 6 true none none none)⟩
    apTypeConverter "hls_register" (some "") =
    .ok ⟨[10, 8], ["N", "M"], ".out",
      .NamedType "out_t" (.APFixedPrecisionType 16 6 true none none none),
      "hls_register", "", "out"⟩ := by decide

example : APTypeConverter.convert (.IntegerPrecisionType 8 true) =
    .ok (.APIntegerPrecisionType 8 true) := by decide

/-- Successful type conversion preserves the type's name. -/
theorem convert_preserves_name (tc : HLSTypeConverter) (ty t : TypeV)
    (h : HLSTypeConverter.convert tc ty = .ok t) : t.name = ty.name := by
  cases ty <;>
    simp only [HLSTypeConverter.convert, HLSType.from_type, HLSCompressedType.from_type,
      HLSExponentType.from_type, HLSPackedType.from_type] at h <;>
    split at h <;>
    first
      | exact Except.noConfusion h
      | (injection h with h2; subst h2; rfl)

/-- A successful `ArrayVariable` construction copies shape, dimension names
and name from the tensor variable and stores the converted rebuilt type. -/
theorem arrayInit_ok (tv : TensorVar) (tc : HLSTypeConverter) (pr : String)
    (a : ArrayVariableS) (h : ArrayVariable.init tv tc pr = .ok a) :
    ∃ t, HLSTypeConverter.convert tc (TypeV.NamedType tv.type.name tv.type.precision) =
        .ok t ∧ a = ⟨tv.shape, tv.dim_names, tv.name, t, pr⟩ := by
  simp only [ArrayVariable.init] at h
  split at h
  · exact Except.noConfusion h
  next t ht =>
    injection h with h2
    exact ⟨t, ht, h2.symm⟩

/-- Claim C1, counterexample: for a converted `PackedType` with `n_elem=32`,
`n_pack=4`, the rendered count is the textual expression `32/4`
(respectively `32*4`), not the evaluated number `8` (respectively `128`). -/
theorem claim1_packed_count_counterexample :
    hlsDefinitionCpp (.PackedType "my_t" (.APFixedPrecisionType 16 6 true none none none) 32 4 true) =
      some "typedef nnet::array<ap_fixed<16,6>, 32/4> my_t;\n" ∧
    hlsDefinitionCpp (.PackedType "my_t" (.APFixedPrecisionType 16 6 true none none none) 32 4 true) ≠
      some "typedef nnet::array<ap_fixed<16,6>, 8> my_t;\n" ∧
    hlsDefinitionCpp (.PackedType "my_t" (.APFixedPrecisionType 16 6 true none none none) 32 4 false) =
      some "typedef nnet::array<ap_fixed<16,6>, 32*4> my_t;\n" ∧
    hlsDefinitionCpp (.PackedType "my_t" (.APFixedPrecisionType 16 6 true none none none) 32 4 false) ≠
      some "typedef nnet::array<ap_fixed<16,6>, 128> my_t;\n" := by decide

/-- Claim C1, amended: rendering a converted `PackedType` emits the count as
the division expression `n_elem/n_pack` when `unpack` is set and as the
product expression `n_elem*n_pack` otherwise; at `n_elem=32`, `n_pack=4` the
value of that expression is `8`, respectively `128`, but the typedef carries
the expression text, not the computed number. -/
theorem claim1_packed_count_amended (nm : String) (p : PrecisionType) (ps : String)
    (ne np : Nat) (u : Bool) (hp : definition_cpp p = some ps) :
    hlsDefinitionCpp (TypeV.PackedType nm p ne np u) =
      some ("typedef nnet::array<" ++ ps ++ ", " ++ toString ne ++
        (if u then "/" else "*") ++ toString np ++ "> " ++ nm ++ ";\n") ∧
    (32 : Nat) / 4 = 8 ∧ (32 : Nat) * 4 = 128 := by
  simp [hlsDefinitionCpp, hp]

/-- Claim C1, witness for the amended theorem at the claim's instance. -/
theorem claim1_packed_count_witness :
    definition_cpp (.APFixedPrecisionType 16 6 true none none none) = some "ap_fixed<16,6>" ∧
    (hlsDefinitionCpp (TypeV.PackedType "my_t" (.APFixedPrecisionType 16 6 true none none none) 32 4 true) =
      some ("typedef nnet::array<" ++ "ap_fixed<16,6>" ++ ", " ++ toString (32 : Nat) ++
        (if true then "/" else "*") ++ toString (4 : Nat) ++ "> " ++ "my_t" ++ ";\n") ∧
    (32 : Nat) / 4 = 8 ∧ (32 : Nat) * 4 = 128) :=
  ⟨by decide,
   claim1_packed_count_amended "my_t" (.APFixedPrecisionType 16 6 true none none none)
     "ap_fixed<16,6>" 32 4 true (by decide)⟩

/-- Claim C2, counterexample: under the algorithmic (`AC`) dialect the
converted compressed type's index fields are not typed by the
dialect-rendered text of `index_precision`.  The type converter leaves
`index_precision = Integer(10, unsigned)` unconverted, and rendering
interpolates its upstream textual form `ap_uint<10>`, while the `AC`
dialect's rendering of that precision is `ac_int<10, false>`. -/
theorem claim2_compressed_fields_counterexample :
    HLSTypeConverter.convert acTypeConverter
      (.CompressedType "comp_t" (.FixedPrecisionType 16 6 true none none none)
        (.IntegerPrecisionType 10 false)) =
      .ok (.CompressedType "comp_t" (.ACFixedPrecisionType 16 6 true none none none)
        (.IntegerPrecisionType 10 false)) ∧
    hlsDefinitionCpp (.CompressedType "comp_t" (.ACFixedPrecisionType 16 6 true none none none)
        (.IntegerPrecisionType 10 false)) =
      some "typedef struct comp_t \x7bap_uint<10> row_index;ap_uint<10> col_index;ac_fixed<16,6,true> weight; \x7d comp_t;\n" ∧
    definition_cpp (ACTypeConverter.convert (.IntegerPrecisionType 10 false)
        |>.toOption.getD .XnorPrecisionType) = some "ac_int<10, false>" ∧
    ("typedef struct comp_t \x7bap_uint<10> row_index;ap_uint<10> col_index;ac_fixed<16,6,true> weight; \x7d comp_t;\n" : String) ≠
      "typedef struct comp_t \x7bac_int<10, false> row_index;ac_int<10, false> col_index;ac_fixed<16,6,true> weight; \x7d comp_t;\n" := by
  decide

/-- Claim C2, amended: the converted compressed type renders a struct whose
fields appear in the exact order `row_index, col_index, weight`, with
`weight` typed by the dialect-rendered text of the converted `precision`;
`row_index` and `col_index` are typed by the plain upstream textual form of
`index_precision`, which the type converter passes through unconverted.
For an integer index precision that form coincides with the bounded-width
(`AP`) rendering but not with the algorithmic (`AC`) one. -/
theorem claim2_compressed_fields_amended (nm : String) (p ip q : PrecisionType)
    (tc : HLSTypeConverter) (qs : String)
    (hp : tc.precision_converter p = .ok q) (hq : definition_cpp q = some qs) :
    HLSTypeConverter.convert tc (TypeV.CompressedType nm p ip) =
      .ok (TypeV.CompressedType nm q ip) ∧
    hlsDefinitionCpp (TypeV.CompressedType nm q ip) =
      some ("typedef struct " ++ nm ++ " \x7b" ++ precisionStr ip ++ " row_index;" ++
        precisionStr ip ++ " col_index;" ++ qs ++ " weight; \x7d " ++ nm ++ ";\n") ∧
    (∀ w s, precisionStr (PrecisionType.IntegerPrecisionType w s) = apIntString w s) := by
  refine ⟨?_, ?_, fun w s => rfl⟩
  · simp [HLSTypeConverter.convert, HLSCompressedType.from_type, hp]
  · simp [hlsDefinitionCpp, hq]

/-- Claim C2, witness for the amended theorem at the spec's instance
(`index_precision = Integer(10, unsigned)`, weight precision
`Fixed(16, 6, signed)`, bounded-width dialect). -/
theorem claim2_compressed_fields_witness :
    apTypeConverter.precision_converter (.FixedPrecisionType 16 6 true none none none) =
      .ok (.APFixedPrecisionType 16 6 true none none none) ∧
    definition_cpp (.APFixedPrecisionType 16 6 true none none none) = some "ap_fixed<16,6>" ∧
    (HLSTypeConverter.convert apTypeConverter
      (TypeV.CompressedType "comp_t" (.FixedPrecisionType 16 6 true none none none)
        (.IntegerPrecisionType 10 false)) =
      .ok (TypeV.CompressedType "comp_t" (.APFixedPrecisionType 16 6 true none none none)
        (.IntegerPrecisionType 10 false)) ∧
    hlsDefinitionCpp (TypeV.CompressedType "comp_t" (.APFixedPrecisionType 16 6 true none none none)
        (.IntegerPrecisionType 10 false)) =
      some ("typedef struct " ++ "comp_t" ++ " \x7b" ++
        precisionStr (.IntegerPrecisionType 10 false) ++ " row_index;" ++
        precisionStr (.IntegerPrecisionType 10 false) ++ " col_index;" ++
        "ap_fixed<16,6>" ++ " weight; \x7d " ++ "comp_t" ++ ";\n") ∧
    (∀ w s, precisionStr (PrecisionType.IntegerPrecisionType w s) = apIntString w s)) :=
  ⟨by decide, by decide,
   claim2_compressed_fields_amended "comp_t" (.FixedPrecisionType 16 6 true none none none)
     (.IntegerPrecisionType 10 false) (.APFixedPrecisionType 16 6 true none none none)
     apTypeConverter "ap_fixed<16,6>" (by decide) (by decide)⟩

/-- Claim C3, counterexample: under the algorithmic (`AC`) dialect the
converted exponent type's `sign` field is not rendered by that dialect's
Xnor leaf renderer (`ac_int<1, false>`): the source interpolates
`str(XnorPrecisionType())`, the upstream textual form of the abstract Xnor
precision (`ap_uint<1>`), which does not depend on the dialect. -/
theorem claim3_exponent_sign_counterexample :
    HLSTypeConverter.convert acTypeConverter
      (.ExponentType "exp_t" (.ExponentPrecisionType 4 true)) =
      .ok (.ExponentType "exp_t" (.ACExponentPrecisionType 4 true)) ∧
    hlsDefinitionCpp (.ExponentType "exp_t" (.ACExponentPrecisionType 4 true)) =
      some "typedef struct exp_t \x7bap_uint<1> sign;ac_int<4, true> weight; \x7d exp_t;\n" ∧
    definition_cpp PrecisionType.ACXnorPrecisionType = some "ac_int<1, false>" ∧
    ("typedef struct exp_t \x7bap_uint<1> sign;ac_int<4, true> weight; \x7d exp_t;\n" : String) ≠
      "typedef struct exp_t \x7bac_int<1, false> sign;ac_int<4, true> weight; \x7d exp_t;\n" := by
  decide

/-- Claim C3, amended: the converted exponent type renders a 2-field struct
with fields in the exact order `sign, weight`; the `sign` field's text is
the upstream textual form of a fresh abstract Xnor precision — a single
unsigned bit, `ap_uint<1>` — regardless of the wrapped precision's kind and
also regardless of the dialect.  That text coincides with the bounded-width
dialect's Xnor leaf render but is not produced by the dialect's own Xnor
leaf renderer. -/
theorem claim3_exponent_sign_amended (nm : String) (p q : PrecisionType)
    (tc : HLSTypeConverter) (qs : String)
    (hp : tc.precision_converter p = .ok q) (hq : definition_cpp q = some qs) :
    HLSTypeConverter.convert tc (TypeV.ExponentType nm p) =
      .ok (TypeV.ExponentType nm q) ∧
    hlsDefinitionCpp (TypeV.ExponentType nm q) =
      some ("typedef struct " ++ nm ++ " \x7b" ++
        precisionStr PrecisionType.XnorPrecisionType ++ " sign;" ++
        qs ++ " weight; \x7d " ++ nm ++ ";\n") ∧
    precisionStr PrecisionType.XnorPrecisionType = "ap_uint<1>" ∧
    definition_cpp PrecisionType.APXnorPrecisionType = some "ap_uint<1>" := by
  refine ⟨?_, ?_, by decide, by decide⟩
  · simp [HLSTypeConverter.convert, HLSExponentType.from_type, hp]
  · simp [hlsDefinitionCpp, hq]

/-- Claim C3, witness for the amended theorem under the bounded-width
dialect with an exponent-kind wrapped precision. -/
theorem claim3_exponent_sign_witness :
    apTypeConverter.precision_converter (.ExponentPrecisionType 4 true) =
      .ok (.APExponentPrecisionType 4 true) ∧
    definition_cpp (.APExponentPrecisionType 4 true) = some "ap_int<4>" ∧
    (HLSTypeConverter.convert apTypeConverter
      (TypeV.ExponentType "exp_t" (.ExponentPrecisionType 4 true)) =
      .ok (TypeV.ExponentType "exp_t" (.APExponentPrecisionType 4 true)) ∧
    hlsDefinitionCpp (TypeV.ExponentType "exp_t" (.APExponentPrecisionType 4 true)) =
      some ("typedef struct " ++ "exp_t" ++ " \x7b" ++
        precisionStr PrecisionType.XnorPrecisionType ++ " sign;" ++
        "ap_int<4>" ++ " weight; \x7d " ++ "exp_t" ++ ";\n") ∧
    precisionStr PrecisionType.XnorPrecisionType = "ap_uint<1>" ∧
    definition_cpp PrecisionType.APXnorPrecisionType = some "ap_uint<1>") :=
  ⟨by decide, by decide,
   claim3_exponent_sign_amended "exp_t" (.ExponentPrecisionType 4 true)
     (.APExponentPrecisionType 4 true) apTypeConverter "ap_int<4>"
     (by decide) (by decide)⟩

/-- Claim C5: for every precision of one of the four recognized abstract
kinds and each dialect, conversion succeeds, and converting the result again
returns the very same value — so the doubly-converted precision renders
text identical to the singly-converted one — and any precision already
tagged with the target dialect is returned unchanged by that dialect's
converter. -/
theorem claim5_convert_idempotent (p : PrecisionType) (h : isAbstractKind p = true) :
    (∃ q, APTypeConverter.convert p = .ok q ∧ APTypeConverter.convert q = .ok q ∧
      definition_cpp q ≠ none) ∧
    (∃ r, ACTypeConverter.convert p = .ok r ∧ ACTypeConverter.convert r = .ok r ∧
      definition_cpp r ≠ none) ∧
    (∀ t, isAPTagged t = true → APTypeConverter.convert t = .ok t) ∧
    (∀ t, isACTagged t = true → ACTypeConverter.convert t = .ok t) := by
  refine ⟨?_, ?_, fun t ht => by simp [APTypeConverter.convert, ht],
    fun t ht => by simp [ACTypeConverter.convert, ht]⟩
  · cases p <;> simp [isAbstractKind] at h <;> exact ⟨_, rfl, rfl, by simp [definition_cpp]⟩
  · cases p <;> simp [isAbstractKind] at h <;> exact ⟨_, rfl, rfl, by simp [definition_cpp]⟩

/-- Claim C5, witness at `Integer(width=8, signed)`. -/
theorem claim5_convert_idempotent_witness :
    isAbstractKind (.IntegerPrecisionType 8 true) = true ∧
    ((∃ q, APTypeConverter.convert (.IntegerPrecisionType 8 true) = .ok q ∧
        APTypeConverter.convert q = .ok q ∧ definition_cpp q ≠ none) ∧
     (∃ r, ACTypeConverter.convert (.IntegerPrecisionType 8 true) = .ok r ∧
        ACTypeConverter.convert r = .ok r ∧ definition_cpp r ≠ none) ∧
     (∀ t, isAPTagged t = true → APTypeConverter.convert t = .ok t) ∧
     (∀ t, isACTagged t = true → ACTypeConverter.convert t = .ok t)) :=
  ⟨by decide, claim5_convert_idempotent (.IntegerPrecisionType 8 true) (by decide)⟩

/-- Claim C6: a dialect precision converter, given a precision that is not
of one of the four recognized abstract kinds and not already tagged with its
own dialect — in this closed class set, a value tagged with the other
dialect — fails with the `Cannot convert precision type` error.  The
conversion functions are pure: they inspect their argument and return, so
no shared state exists to mutate partially. -/
theorem claim6_unsupported_kind (p : PrecisionType) (h : isAbstractKind p = false) :
    (isAPTagged p = false →
      APTypeConverter.convert p =
        .error ("Cannot convert precision type to AP: " ++ className p)) ∧
    (isACTagged p = false →
      ACTypeConverter.convert p =
        .error ("Cannot convert precision type to AC: " ++ className p)) := by
  cases p <;>
    simp_all [isAbstractKind, isAPTagged, isACTagged,
      APTypeConverter.convert, ACTypeConverter.convert, className]

/-- Claim C6, witness: the `AP` converter rejects an `AC`-tagged value. -/
theorem claim6_unsupported_kind_witness :
    isAbstractKind (.ACIntegerPrecisionType 8 true) = false ∧
    isAPTagged (.ACIntegerPrecisionType 8 true) = false ∧
    APTypeConverter.convert (.ACIntegerPrecisionType 8 true) =
      .error ("Cannot convert precision type to AP: " ++
        className (.ACIntegerPrecisionType 8 true)) :=
  ⟨by decide, by decide,
   (claim6_unsupported_kind (.ACIntegerPrecisionType 8 true) (by decide)).1 (by decide)⟩

/-- Claim C4, counterexample: `ArrayVariable.from_variable`, called with an
input that is already an `ArrayVariable`, does not return that input; it
constructs a new wrapper (here one whose state happens to equal the input's,
re-converted). -/
theorem claim4_from_variable_counterexample :
    ArrayVariable.from_variable
      (.array ⟨[4], ["N_IN"], "w1",
        .NamedType "w1_t" (.APFixedPrecisionType 16 6 true none none none), "partition"⟩)
      apTypeConverter "partition" =
      .constructed (.ok ⟨[4], ["N_IN"], "w1",
        .NamedType "w1_t" (.APFixedPrecisionType 16 6 true none none none), "partition"⟩) ∧
    ArrayVariable.from_variable
      (.array ⟨[4], ["N_IN"], "w1",
        .NamedType "w1_t" (.APFixedPrecisionType 16 6 true none none none), "partition"⟩)
      apTypeConverter "partition" ≠
      FromVarOutcome.returnedInput := by decide

/-- Claim C4, amended: the struct-member, stream, static-weight and
BRAM-weight `from_variable` constructors are idempotent — an input that is
already an instance of the target class is returned unchanged — but the
array `from_variable` lacks the exact-class check and constructs a new
wrapper on every call, whatever the input. -/
theorem claim4_from_variable_amended :
    (∀ (s : StructMemberS) (tc : HLSTypeConverter) (pr : String) (sn : Option String),
      StructMemberVariable.from_variable (.structMember s) tc pr sn = .returnedInput) ∧
    (∀ (s : StreamVariableS) (tc : HLSTypeConverter) (np d : Nat),
      StreamVariable.from_variable (.stream s) tc np d = .returnedInput) ∧
    (∀ (s : StaticWeightS) (tc : HLSTypeConverter),
      StaticWeightVariable.from_variable (.staticW s) tc = .returnedInput) ∧
    (∀ b : BramWeightS, BramWeightVariable.from_variable (.bram b) = .returnedInput) ∧
    (∀ (inp : TVInput) (tc : HLSTypeConverter) (pr : String),
      ArrayVariable.from_variable inp tc pr ≠ .returnedInput) :=
  ⟨fun _ _ _ _ => rfl, fun _ _ _ _ => rfl, fun _ _ => rfl, fun _ => rfl,
   fun _ _ _ h => FromVarOutcome.noConfusion h⟩

/-- Claim C4, witness instantiating each conjunct of the amended theorem at
concrete inputs. -/
theorem claim4_from_variable_witness :
    StructMemberVariable.from_variable
      (.structMember ⟨[2], ["N"], "s.m",
        .NamedType "m_t" (.APIntegerPrecisionType 8 true), "hls_register", "s", "m"⟩)
      apTypeConverter "partition" none = .returnedInput ∧
    StreamVariable.from_variable
      (.stream ⟨[2], ["N"], "st",
        .PackedType "st_t" (.APIntegerPrecisionType 8 true) 2 1 false, ("stream", 1)⟩)
      apTypeConverter 1 0 = .returnedInput ∧
    StaticWeightVariable.from_variable
      (.staticW ⟨"w", .NamedType "w_t" (.APIntegerPrecisionType 8 true), [1, 2],
        "WeightVariable"⟩) apTypeConverter = .returnedInput ∧
    BramWeightVariable.from_variable
      (.bram ⟨"b", .NamedType "b_t" (.IntegerPrecisionType 8 true), [3], none⟩) =
      .returnedInput ∧
    ArrayVariable.from_variable
      (.array ⟨[2], ["N"], "a",
        .NamedType "a_t" (.APIntegerPrecisionType 8 true), "partition"⟩)
      apTypeConverter "partition" ≠ FromVarOutcome.returnedInput :=
  ⟨claim4_from_variable_amended.1 _ apTypeConverter "partition" none,
   claim4_from_variable_amended.2.1 _ apTypeConverter 1 0,
   claim4_from_variable_amended.2.2.1 _ apTypeConverter,
   claim4_from_variable_amended.2.2.2.1 _,
   claim4_from_variable_amended.2.2.2.2 _ apTypeConverter "partition"⟩

/-- Claim C10: converting a `PackedType` copies name, converted precision,
`n_elem` and `n_pack`, but not the source's `unpack` flag: whatever the
source value `u`, the converted instance carries the constructor's default
`unpack` value. -/
theorem claim10_unpack_default (nm : String) (p q : PrecisionType) (ne np : Nat)
    (u : Bool) (tc : HLSTypeConverter) (hp : tc.precision_converter p = .ok q) :
    HLSTypeConverter.convert tc (TypeV.PackedType nm p ne np u) =
      .ok (TypeV.PackedType nm q ne np packedUnpackDefault) := by
  simp [HLSTypeConverter.convert, HLSPackedType.from_type, hp]

/-- Claim C10, witness: a source with `unpack = true` converts to an
instance carrying the constructor's default. -/
theorem claim10_unpack_default_witness :
    apTypeConverter.precision_converter (.FixedPrecisionType 16 6 true none none none) =
      .ok (.APFixedPrecisionType 16 6 true none none none) ∧
    HLSTypeConverter.convert apTypeConverter
      (TypeV.PackedType "t_t" (.FixedPrecisionType 16 6 true none none none) 32 4 true) =
      .ok (TypeV.PackedType "t_t" (.APFixedPrecisionType 16 6 true none none none) 32 4
        packedUnpackDefault) :=
  ⟨by decide,
   claim10_unpack_default "t_t" (.FixedPrecisionType 16 6 true none none none)
     (.APFixedPrecisionType 16 6 true none none none) 32 4 true apTypeConverter (by decide)⟩

/-- A tensor variable with last shape dimension zero, used to probe the
default stream depth. -/
def c7tvZero : TensorVar :=
  ⟨[10, 0], ["N", "M"], "v", .NamedType "v_t" (.FixedPrecisionType 16 6 true none none none)⟩

/-- The stream state the source constructs from `c7tvZero`. -/
def c7sZero : StreamVariableS :=
  ⟨[10, 0], ["N", "M"], "v",
    .PackedType "v_t" (.APFixedPrecisionType 16 6 true none none none) 0 1 false,
    ("stream", 0)⟩

/-- Claim C7, counterexample: with a zero last shape dimension and no
explicit depth, stream construction does not fail: NumPy integer
floor-division by zero yields `0`, so construction succeeds with depth
`0`. -/
theorem claim7_default_depth_counterexample :
    StreamVariable.init c7tvZero apTypeConverter 1 0 = .ok c7sZero ∧
    c7sZero.pragma = ("stream", 0) := by decide

/-- Claim C7, amended: when the caller does not supply an explicit queue
depth, a successfully constructed stream variable carries depth
`product(shape) // shape[-1]` (so shape `[10, 8]` yields depth `10`); when
the last dimension is zero, construction does not fail — the floor division
by zero yields `0` and the stream gets depth `0`, which the quotient formula
also covers since `Nat` division by zero is `0`. -/
theorem claim7_default_depth_amended (tv : TensorVar) (tc : HLSTypeConverter)
    (np l : Nat) (s : StreamVariableS) (hl : tv.shape.getLast? = some l)
    (h : StreamVariable.init tv tc np 0 = .ok s) :
    s.pragma = ("stream", listProd tv.shape / l) := by
  simp only [StreamVariable.init] at h
  split at h
  next hl2 => rw [hl2] at hl; exact Option.noConfusion hl
  next lastDim hl2 =>
    rw [hl] at hl2
    injection hl2 with hl3
    subst hl3
    split at h
    · exact Except.noConfusion h
    next t ht =>
      injection h with h2
      subst h2
      simp

/-- Claim C7, witness: shape `[10, 8]` with no explicit depth defaults to
depth `10`. -/
theorem claim7_default_depth_witness :
    ((⟨[10, 8], ["N", "M"], "x",
        .NamedType "x_t" (.FixedPrecisionType 16 6 true none none none)⟩ :
      TensorVar)).shape.getLast? = some 8 ∧
    StreamVariable.init
      ⟨[10, 8], ["N", "M"], "x", .NamedType "x_t" (.FixedPrecisionType 16 6 true none none none)⟩
      apTypeConverter 1 0 =
      .ok ⟨[10, 8], ["N", "M"], "x",
        .PackedType "x_t" (.APFixedPrecisionType 16 6 true none none none) 8 1 false,
        ("stream", 10)⟩ ∧
    ((⟨[10, 8], ["N", "M"], "x",
        .PackedType "x_t" (.APFixedPrecisionType 16 6 true none none none) 8 1 false,
        ("stream", 10)⟩ : StreamVariableS)).pragma =
      ("stream", listProd [10, 8] / 8) :=
  ⟨by decide, by decide,
   claim7_default_depth_amended
     ⟨[10, 8], ["N", "M"], "x", .NamedType "x_t" (.FixedPrecisionType 16 6 true none none none)⟩
     apTypeConverter 1 8 _ (by decide) (by decide)⟩

/-- A tensor variable used to probe struct-member construction. -/
def c8tv : TensorVar :=
  ⟨[10, 8], ["N", "M"], "out", .NamedType "out_t" (.FixedPrecisionType 16 6 true none none none)⟩

/-- The struct-member state constructed from `c8tv` with an empty struct
name. -/
def c8sEmpty : StructMemberS :=
  ⟨[10, 8], ["N", "M"], ".out",
    .NamedType "out_t" (.APFixedPrecisionType 16 6 true none none none),
    "hls_register", "", "out"⟩

/-- Claim C8, counterexample: an empty struct name is accepted — the source
only asserts `struct_name is not None` — and construction succeeds, with
external name `.out`. -/
theorem claim8_struct_name_counterexample :
    StructMemberVariable.init c8tv apTypeConverter "hls_register" (some "") =
      .ok c8sEmpty ∧
    c8sEmpty.name = ".out" := by decide

/-- Claim C8, amended: struct-member construction fails whenever the struct
name is absent (`None`), but any supplied string — the empty string
included — is accepted; on success the rendered declaration uses the bare
member name (the tensor variable's name) while the variable's external name
is the struct name joined to the member name by a dot. -/
theorem claim8_struct_name_amended (tv : TensorVar) (tc : HLSTypeConverter)
    (pr : String) :
    (∀ s, StructMemberVariable.init tv tc pr none ≠ .ok s) ∧
    (∀ sn s, StructMemberVariable.init tv tc pr (some sn) = .ok s →
      s.member_name = tv.name ∧ s.name = sn ++ "." ++ tv.name ∧
      ∀ sfx, StructMemberVariable.definition_cpp s sfx =
        s.type.name ++ " " ++ tv.name ++ sfx ++ "[" ++
          String.intercalate "*" tv.dim_names ++ "]") := by
  constructor
  · intro s h
    simp only [StructMemberVariable.init] at h
    split at h
    · exact Except.noConfusion h
    · exact Except.noConfusion h
  · intro sn s h
    simp only [StructMemberVariable.init] at h
    split at h
    · exact Except.noConfusion h
    next a ha =>
      obtain ⟨t, ht, ha2⟩ := arrayInit_ok tv tc pr a ha
      subst ha2
      injection h with h2
      subst h2
      exact ⟨rfl, rfl, fun sfx => rfl⟩

/-- Claim C8, witness: a non-empty struct name yields the dotted external
name and a bare-member-name declaration. -/
theorem claim8_struct_name_witness :
    StructMemberVariable.init c8tv apTypeConverter "hls_register" (some "inputs") =
      .ok ⟨[10, 8], ["N", "M"], "inputs.out",
        .NamedType "out_t" (.APFixedPrecisionType 16 6 true none none none),
        "hls_register", "inputs", "out"⟩ ∧
    ((⟨[10, 8], ["N", "M"], "inputs.out",
        .NamedType "out_t" (.APFixedPrecisionType 16 6 true none none none),
        "hls_register", "inputs", "out"⟩ : StructMemberS)).member_name = c8tv.name ∧
    ((⟨[10, 8], ["N", "M"], "inputs.out",
        .NamedType "out_t" (.APFixedPrecisionType 16 6 true none none none),
        "hls_register", "inputs", "out"⟩ : StructMemberS)).name = "inputs" ++ "." ++ c8tv.name ∧
    ∀ sfx, StructMemberVariable.definition_cpp
      ⟨[10, 8], ["N", "M"], "inputs.out",
        .NamedType "out_t" (.APFixedPrecisionType 16 6 true none none none),
        "hls_register", "inputs", "out"⟩ sfx =
      ((⟨[10, 8], ["N", "M"], "inputs.out",
        .NamedType "out_t" (.APFixedPrecisionType 16 6 true none none none),
        "hls_register", "inputs", "out"⟩ : StructMemberS)).type.name ++ " " ++ c8tv.name ++
        sfx ++ "[" ++ String.intercalate "*" c8tv.dim_names ++ "]" :=
  ⟨by decide,
   (claim8_struct_name_amended c8tv apTypeConverter "hls_register").2 "inputs" _ (by decide)⟩

/-- A tensor variable used to probe stream rendering. -/
def c9tv : TensorVar :=
  ⟨[10, 8], ["N", "M"], "myvar",
    .NamedType "mytype_t" (.FixedPrecisionType 16 6 true none none none)⟩

/-- The stream state the source constructs from `c9tv`. -/
def c9s : StreamVariableS :=
  ⟨[10, 8], ["N", "M"], "myvar",
    .PackedType "mytype_t" (.APFixedPrecisionType 16 6 true none none none) 8 1 false,
    ("stream", 10)⟩

/-- Claim C9, counterexample: the stream render forms carry the `hls::`
namespace prefix, so they are not bit-for-bit the texts
`stream<<type>> &<name><suffix>` and `stream<<type>> <name><suffix>("<name>")`
stated by the external-interface contract. -/
theorem claim9_stream_render_counterexample :
    StreamVariable.init c9tv apTypeConverter 1 0 = .ok c9s ∧
    StreamVariable.definition_cpp c9s "" true = "hls::stream<mytype_t> &myvar" ∧
    ("hls::stream<mytype_t> &myvar" : String) ≠ "stream<mytype_t> &myvar" ∧
    StreamVariable.definition_cpp c9s "" false = "hls::stream<mytype_t> myvar(\"myvar\")" ∧
    ("hls::stream<mytype_t> myvar(\"myvar\")" : String) ≠ "stream<mytype_t> myvar(\"myvar\")" := by
  decide

/-- Claim C9, amended: for every constructed stream variable the
reference/parameter render form is exactly
`hls::stream<<type>> &<name><suffix>` and the declaration render form is
exactly `hls::stream<<type>> <name><suffix>("<name>")`, with `<type>` the
stream's type name (the tensor variable's type name, preserved by
conversion) and `<name>` the variable's name. -/
theorem claim9_stream_render_amended (tv : TensorVar) (tc : HLSTypeConverter)
    (np d : Nat) (s : StreamVariableS) (sfx : String)
    (h : StreamVariable.init tv tc np d = .ok s) :
    StreamVariable.definition_cpp s sfx true =
      "hls::stream<" ++ tv.type.name ++ "> &" ++ tv.name ++ sfx ∧
    StreamVariable.definition_cpp s sfx false =
      "hls::stream<" ++ tv.type.name ++ "> " ++ tv.name ++ sfx ++
        "(\"" ++ tv.name ++ "\")" := by
  simp only [StreamVariable.init] at h
  split at h
  · exact Except.noConfusion h
  next lastDim hl =>
    split at h
    · exact Except.noConfusion h
    next t ht =>
      have hn : t.name = tv.type.name :=
        convert_preserves_name tc
          (TypeV.PackedType tv.type.name tv.type.precision lastDim np packedUnpackDefault)
          t ht
      injection h with h2
      subst h2
      constructor <;> simp [StreamVariable.definition_cpp, hn]

/-- Claim C9, witness for the amended theorem at a concrete stream. -/
theorem claim9_stream_render_witness :
    StreamVariable.init c9tv apTypeConverter 1 0 = .ok c9s ∧
    (StreamVariable.definition_cpp c9s "" true =
      "hls::stream<" ++ c9tv.type.name ++ "> &" ++ c9tv.name ++ "" ∧
    StreamVariable.definition_cpp c9s "" false =
      "hls::stream<" ++ c9tv.type.name ++ "> " ++ c9tv.name ++ "" ++
        "(\"" ++ c9tv.name ++ "\")") :=
  ⟨by decide, claim9_stream_render_amended c9tv apTypeConverter 1 0 c9s "" (by decide)⟩

example : hlsDefinitionCpp (.PackedType "my_t" (.APFixedPrecisionType 16 6 true none none none) 32 4 true) =
    some "typedef nnet::array<ap_fixed<16,6>, 32/4> my_t;\n" := by decide

example : HLSTypeConverter.convert acTypeConverter
    (.CompressedType "c_t" (.FixedPrecisionType 16 6 true none none none)
      (.IntegerPrecisionType 10 false)) =
    .ok (.CompressedType "c_t" (.ACFixedPrecisionType 16 6 true none none none)
      (.IntegerPrecisionType 10 false)) := by decide

example : hlsDefinitionCpp (.CompressedType "c_t"
    (.ACFixedPrecisionType 16 6 true none none none)
    (.IntegerPrecisionType 10 false)) =
    some "typedef struct c_t \x7bap_uint<10> row_index;ap_uint<10> col_index;ac_fixed<16,6,true> weight; \x7d c_t;\n" := by
  decide

example : definition_cpp (.APIntegerPrecisionType 8 true) = some "ap_int<8>" := by decide

example : definition_cpp (.ACIntegerPrecisionType 4 false) = some "ac_int<4, false>" := by
  decide

example : definition_cpp (.APFixedPrecisionType 16 6 true none none none) =
    some "ap_fixed<16,6>" := by decide

example : definition_cpp (.APFixedPrecisionType 16 6 true (some "RND") none none) =
    some "ap_fixed<16,6,AP_RND>" := by decide
